import Mathlib

/-!
Verification of the synthetic-dataset generator (`generate_data.py`) and the
prediction service (`app.py`) of the Medical-Equipment-Maintenance repository.

Modelling conventions (shallow embedding):
* CSV float columns are modelled as `PVal`: either an actual rational number
  (`PVal.num q`, floats are modelled as exact rationals) or `PVal.nan`, the
  IEEE NaN that pandas produces for undefined statistics (e.g. the sample
  standard deviation of fewer than two values).  All NaN-propagation rules of
  the source libraries are modelled explicitly.
* A standard deviation is represented by its square (the sample variance),
  which is a rational number whenever it is defined; `sqrt` is irrational and
  is never needed because (a) comparisons `std >= c` (c >= 0) are equivalent to
  `var >= c^2` and (b) Python's `max(std, c)` corresponds to `max(var, c^2)`
  by monotonicity of `sqrt`.
* Randomness is threaded explicitly through an `Oracle`: index streams for
  `np.random.choice`, a rational stream for each call of `np.random.normal`
  (the oracle value `z` stands for `scale * standard_normal_draw`, so the
  sampled value is `loc + z`), and an index list for the row shuffle
  `df.sample(frac=1)`.
* Fallible numpy calls return `Except String _`: `np.random.choice` raises on
  an empty population ("a must be non-empty", checked before the size) and all
  array constructors raise on a negative size ("negative dimensions are not
  allowed"), exactly as the legacy `numpy.random` API does.
-/

namespace MedEquip

/-- Value of a float cell: an actual (rational) number or IEEE NaN. -/
inductive PVal where
  | num (q : ℚ)
  | nan
deriving DecidableEq

/-- An input record as read from the original CSV: the five model columns plus
the optional unused `date` column (dropped by the generator, line 21-22). -/
structure RawRow where
  device_name : String
  usage_hours : ℚ
  temperature : ℚ
  error_count : ℤ
  breakdown_flag : ℤ
  date : Option String
deriving DecidableEq

/-- A working/output record (the `date` column dropped).  Float columns are
`PVal` because synthesized cells can be NaN when a sampling parameter is NaN;
`error_count` stays integer (the breakdown synthesis casts to int). -/
structure Row where
  device_name : String
  usage_hours : PVal
  temperature : PVal
  error_count : ℤ
  breakdown_flag : ℤ
deriving DecidableEq

instance : Inhabited Row := ⟨⟨"", PVal.num 0, PVal.num 0, 0, 0⟩⟩

/-- Dropping the `date` column from an input record (line 21-22). -/
def RawRow.toRow (r : RawRow) : Row :=
  ⟨r.device_name, PVal.num r.usage_hours, PVal.num r.temperature,
   r.error_count, r.breakdown_flag⟩

/-- `df` after the date-drop (lines 18-22): the original rows, dates removed. -/
def dfRows (input : List RawRow) : List Row := input.map RawRow.toRow

/-- `df_healthy = df[df['breakdown_flag'] == 0]` (line 25). -/
def healthyPart (input : List RawRow) : List Row :=
  (dfRows input).filter fun r => r.breakdown_flag == 0

/-- `df_breakdown = df[df['breakdown_flag'] == 1]` (line 26). -/
def breakdownPart (input : List RawRow) : List Row :=
  (dfRows input).filter fun r => r.breakdown_flag == 1

/-- Number of rows with `breakdown_flag == 1` in a row list. -/
def countFlag1 (l : List Row) : ℕ := l.countP fun r => r.breakdown_flag == 1

/-- The actual numbers of a float column; pandas statistics skip NaN cells
(`skipna=True` is the `describe()` default). -/
def colVals (l : List PVal) : List ℚ :=
  l.filterMap fun v => match v with | .num q => some q | .nan => none

/-- The `usage_hours` column of a partition, as seen by `describe()`. -/
def usageVals (rows : List Row) : List ℚ := colVals (rows.map Row.usage_hours)

/-- The `temperature` column of a partition, as seen by `describe()`. -/
def tempVals (rows : List Row) : List ℚ := colVals (rows.map Row.temperature)

/-- The `error_count` column of a partition (integers, no NaN possible). -/
def errVals (rows : List Row) : List ℚ := rows.map fun r => (r.error_count : ℚ)

/-- `describe().loc['mean', c]`: mean of the column, NaN when it is empty. -/
def pMean (l : List ℚ) : PVal :=
  if l.isEmpty then .nan else .num (l.sum / l.length)

/-- `describe().loc['std', c]`, represented by its square: the sample variance
with `ddof=1`, which pandas reports as NaN for fewer than two values. -/
def pStdSq (l : List ℚ) : PVal :=
  if l.length < 2 then .nan
  else .num (((l.map fun x => (x - l.sum / l.length) ^ 2).sum) / ((l.length : ℚ) - 1))

/-- Python's `max(std, c)` (lines 62/64/66), acting on the squared
representation: `max(sqrt v, c) = sqrt (max v (c^2))` for `c ≥ 0`.  When the
std is NaN (one-row partition) the Python comparison `c > nan` is `False`, so
`max(nan, c)` keeps the FIRST argument and returns NaN. -/
def pyMaxStd (v : PVal) (c : ℚ) : PVal :=
  match v with
  | .num q => .num (max q (c * c))
  | .nan => .nan

/-- `value_counts(normalize=True).index`: the distinct observed values of a
column (the categorical support; the sampling weights themselves are abstracted
away because `np.random.choice` can return any index of the support). -/
def vcIndex {α : Type} [DecidableEq α] (l : List α) : List α := l.dedup

/-- `healthy_stats.loc['mean', 'usage_hours']` (line 50). -/
def usage_mean_h (input : List RawRow) : PVal := pMean (usageVals (healthyPart input))

/-- `healthy_stats.loc['std', 'usage_hours']` (line 51), squared representation.
No floor is applied to the healthy partition. -/
def usage_std_h (input : List RawRow) : PVal := pStdSq (usageVals (healthyPart input))

/-- `healthy_stats.loc['mean', 'temperature']` (line 52). -/
def temp_mean_h (input : List RawRow) : PVal := pMean (tempVals (healthyPart input))

/-- `healthy_stats.loc['std', 'temperature']` (line 53), squared representation.
No floor is applied to the healthy partition. -/
def temp_std_h (input : List RawRow) : PVal := pStdSq (tempVals (healthyPart input))

/-- Support of `error_probs_h` (line 54): the observed healthy error counts. -/
def error_probs_h_index (input : List RawRow) : List ℤ :=
  vcIndex ((healthyPart input).map Row.error_count)

/-- Support of `healthy_devices_probs` (line 55). -/
def healthy_devices_index (input : List RawRow) : List String :=
  vcIndex ((healthyPart input).map Row.device_name)

/-- `breakdown_stats.loc['mean', 'usage_hours']` (line 61). -/
def usage_mean_b (input : List RawRow) : PVal := pMean (usageVals (breakdownPart input))

/-- `usage_std_b = max(breakdown_stats.loc['std', 'usage_hours'], 1.0)`
(line 62), squared representation. -/
def usage_std_b (input : List RawRow) : PVal :=
  pyMaxStd (pStdSq (usageVals (breakdownPart input))) 1

/-- `breakdown_stats.loc['mean', 'temperature']` (line 63). -/
def temp_mean_b (input : List RawRow) : PVal := pMean (tempVals (breakdownPart input))

/-- `temp_std_b = max(breakdown_stats.loc['std', 'temperature'], 1.0)`
(line 64), squared representation. -/
def temp_std_b (input : List RawRow) : PVal :=
  pyMaxStd (pStdSq (tempVals (breakdownPart input))) 1

/-- `breakdown_stats.loc['mean', 'error_count']` (line 65). -/
def error_mean_b (input : List RawRow) : PVal := pMean (errVals (breakdownPart input))

/-- `error_std_b = max(breakdown_stats.loc['std', 'error_count'], 0.5)`
(line 66), squared representation. -/
def error_std_b (input : List RawRow) : PVal :=
  pyMaxStd (pStdSq (errVals (breakdownPart input))) (1 / 2)

/-- Support of `breakdown_devices_probs` (line 67). -/
def breakdown_devices_index (input : List RawRow) : List String :=
  vcIndex ((breakdownPart input).map Row.device_name)

/-- `n_original_breakdowns = len(df_breakdown)` (line 28). -/
def n_original_breakdowns (input : List RawRow) : ℕ := (breakdownPart input).length

/-- `n_new_breakdowns` (lines 31-38): `0` when there are no breakdown rows,
otherwise `N_BREAKDOWNS_TARGET - n_original_breakdowns` with NO clamping. -/
def n_new_breakdowns (input : List RawRow) (breakTarget : ℤ) : ℤ :=
  if n_original_breakdowns input = 0 then 0
  else breakTarget - n_original_breakdowns input

/-- `n_new_healthy = N_TOTAL - n_original_healthy - n_original_breakdowns -
n_new_breakdowns` (line 43), with NO clamping. -/
def n_new_healthy (input : List RawRow) (total breakTarget : ℤ) : ℤ :=
  total - (healthyPart input).length - n_original_breakdowns input
    - n_new_breakdowns input breakTarget

/-- Explicit randomness for one generator run. -/
structure Oracle where
  hDev : ℕ → ℕ
  hUse : ℕ → ℚ
  hTemp : ℕ → ℚ
  hErr : ℕ → ℕ
  bDev : ℕ → ℕ
  bUse : ℕ → ℚ
  bTemp : ℕ → ℚ
  bErr : ℕ → ℚ
  shuffle : List ℕ

/-- The values produced by a successful `np.random.choice(support, size=n)`:
the i-th draw is the support element at the oracle's i-th index (reduced mod
the support size so that any index stream is a valid randomness source). -/
def choiceList {α : Type} (s : List α) (pick : ℕ → ℕ) (n : ℕ) (d : α) : List α :=
  (List.range n).map fun i => s.getD (pick i % s.length) d

/-- `np.random.choice(support, size=size, p=probs)`: raises on an empty
population (checked first, even for `size=0`), raises on a negative size. -/
def npChoice {α : Type} (s : List α) (pick : ℕ → ℕ) (size : ℤ) (d : α) :
    Except String (List α) :=
  if s.isEmpty then .error "a must be non-empty"
  else if size < 0 then .error "negative dimensions are not allowed"
  else .ok (choiceList s pick size.toNat d)

/-- One draw of `np.random.normal(loc, scale)`: `loc + scale * N(0,1)`, where
`z` is the oracle's value for `scale * N(0,1)`.  If `loc` or `scale` is NaN the
draw is NaN (numpy does not raise on a NaN scale: `nan < 0` is false). -/
def pvShift (mean scaleSq : PVal) (z : ℚ) : PVal :=
  match mean, scaleSq with
  | .num m, .num _ => .num (m + z)
  | _, _ => .nan

/-- The values of a successful `np.random.normal(loc, scale, n)`. -/
def normalList (mean scaleSq : PVal) (zs : ℕ → ℚ) (n : ℕ) : List PVal :=
  (List.range n).map fun i => pvShift mean scaleSq (zs i)

/-- `np.random.normal(loc, scale, size)`: raises on a negative size. -/
def npNormal (mean scaleSq : PVal) (zs : ℕ → ℚ) (size : ℤ) :
    Except String (List PVal) :=
  if size < 0 then .error "negative dimensions are not allowed"
  else .ok (normalList mean scaleSq zs size.toNat)

/-- `np.zeros(size, dtype=int)` / `np.ones(size, dtype=int)` (lines 77/89):
raises on a negative size. -/
def npIntFill (c : ℤ) (size : ℤ) : Except String (List ℤ) :=
  if size < 0 then .error "negative dimensions are not allowed"
  else .ok (List.replicate size.toNat c)

/-- `np.clip(x, a_min=0, a_max=None)` on one cell; NaN propagates. -/
def pvClip0 (v : PVal) : PVal :=
  match v with
  | .num q => .num (max q 0)
  | .nan => .nan

/-- `np.round` on one number: round half to even (banker's rounding). -/
def bankersRound (q : ℚ) : ℤ :=
  let f := q.floor
  let r := q - f
  if r < 1 / 2 then f
  else if 1 / 2 < r then f + 1
  else if 2 ∣ f then f else f + 1

/-- `np.round` on one cell; NaN propagates. -/
def pvRound (v : PVal) : PVal :=
  match v with
  | .num q => .num (bankersRound q)
  | .nan => .nan

/-- Truncation toward zero, the behaviour of `.astype(int)` on a float. -/
def ratTrunc (q : ℚ) : ℤ := if 0 ≤ q then q.floor else -((-q).floor)

/-- `.astype(int)` applied to NaN is an invalid cast; on the x86-64 reference
platform numpy produces INT64_MIN (with a RuntimeWarning). -/
def npNanCastInt : ℤ := -(2 ^ 63)

/-- `.astype(int)` on one cell. -/
def pvCastInt (v : PVal) : ℤ :=
  match v with
  | .num q => ratTrunc q
  | .nan => npNanCastInt

/-- The breakdown `error_count` pipeline (line 88):
`np.clip(np.round(draw), a_min=0, a_max=None).astype(int)`. -/
def bErrPipeline (v : PVal) : ℤ := pvCastInt (pvClip0 (pvRound v))

/-- `pd.DataFrame(columns)`: rows are formed index-wise from the columns. -/
def buildRows (devs : List String) (us ts : List PVal) (es fs : List ℤ) :
    List Row :=
  (devs.zip (us.zip (ts.zip (es.zip fs)))).map fun x =>
    ⟨x.1, x.2.1, x.2.2.1, x.2.2.2.1, x.2.2.2.2⟩

/-- `new_healthy_df` (lines 72-79): the dict entries are evaluated in source
order, so the first failing numpy call determines the error. -/
def genHealthyRows (input : List RawRow) (total breakTarget : ℤ) (o : Oracle) :
    Except String (List Row) := do
  let n := n_new_healthy input total breakTarget
  let devs ← npChoice (healthy_devices_index input) o.hDev n ""
  let us ← npNormal (usage_mean_h input) (usage_std_h input) o.hUse n
  let ts ← npNormal (temp_mean_h input) (temp_std_h input) o.hTemp n
  let es ← npChoice (error_probs_h_index input) o.hErr n 0
  let fs ← npIntFill 0 n
  return buildRows devs (us.map pvClip0) ts es fs

/-- `new_breakdown_df` (lines 83-94): an empty frame when there are no original
breakdown rows (the `CAN_GENERATE_BREAKDOWNS = False` branch), otherwise the
dict of lines 84-90 evaluated in source order. -/
def genBreakdownRows (input : List RawRow) (breakTarget : ℤ) (o : Oracle) :
    Except String (List Row) :=
  if n_original_breakdowns input = 0 then .ok []
  else do
    let n := n_new_breakdowns input breakTarget
    let devs ← npChoice (breakdown_devices_index input) o.bDev n ""
    let us ← npNormal (usage_mean_b input) (usage_std_b input) o.bUse n
    let ts ← npNormal (temp_mean_b input) (temp_std_b input) o.bTemp n
    let es ← npNormal (error_mean_b input) (error_std_b input) o.bErr n
    let fs ← npIntFill 1 n
    return buildRows devs (us.map pvClip0) ts (es.map bErrPipeline) fs

/-- `df.sample(frac=1)` (line 100): reorder the rows by the oracle's index
list when it is a permutation of the positions (any uniform permutation is a
possible outcome); an index list that is not a permutation stands for the
identity draw. -/
def pyShuffle (sigma : List ℕ) (l : List Row) : List Row :=
  if sigma.Perm (List.range l.length) then sigma.map fun i => l.getD i default
  else l

/-- Result of one generator run: the shuffled final table and whether the
no-breakdown-rows warning (lines 32-33) was printed. -/
structure GenResult where
  rows : List Row
  warnedNoBreakdowns : Bool
deriving DecidableEq

/-- The whole generator script body (lines 18-103): build the synthetic healthy
and breakdown rows, concatenate them with the originals (line 97) and shuffle
(line 100). -/
def generate (input : List RawRow) (total breakTarget : ℤ) (o : Oracle) :
    Except String GenResult := do
  let newH ← genHealthyRows input total breakTarget o
  let newB ← genBreakdownRows input breakTarget o
  return { rows := pyShuffle o.shuffle (dfRows input ++ newH ++ newB)
           warnedNoBreakdowns := n_original_breakdowns input == 0 }

/-- Whether a run completed without a raised exception. -/
def exOk {α : Type} : Except String α → Bool
  | .ok _ => true
  | .error _ => false

/-- The final table of a completed run (`[]` for a raised exception). -/
def runRows (x : Except String GenResult) : List Row :=
  match x with
  | .ok r => r.rows
  | .error _ => []

/-- Whether a completed run printed the no-breakdown-rows warning. -/
def warnedOf (x : Except String GenResult) : Bool :=
  match x with
  | .ok r => r.warnedNoBreakdowns
  | .error _ => false

/-- The row list of a successful column-building step (`[]` on error). -/
def okRows (x : Except String (List Row)) : List Row :=
  match x with
  | .ok l => l
  | .error _ => []

/-- The value of a successful `new_healthy_df` construction (lines 72-79). -/
def healthyRowsPure (input : List RawRow) (total breakTarget : ℤ) (o : Oracle) :
    List Row :=
  buildRows
    (choiceList (healthy_devices_index input) o.hDev
      (n_new_healthy input total breakTarget).toNat "")
    ((normalList (usage_mean_h input) (usage_std_h input) o.hUse
      (n_new_healthy input total breakTarget).toNat).map pvClip0)
    (normalList (temp_mean_h input) (temp_std_h input) o.hTemp
      (n_new_healthy input total breakTarget).toNat)
    (choiceList (error_probs_h_index input) o.hErr
      (n_new_healthy input total breakTarget).toNat 0)
    (List.replicate (n_new_healthy input total breakTarget).toNat 0)

/-- The value of a successful `new_breakdown_df` construction (lines 84-91),
in the `CAN_GENERATE_BREAKDOWNS` case. -/
def breakdownRowsPure (input : List RawRow) (breakTarget : ℤ) (o : Oracle) :
    List Row :=
  buildRows
    (choiceList (breakdown_devices_index input) o.bDev
      (n_new_breakdowns input breakTarget).toNat "")
    ((normalList (usage_mean_b input) (usage_std_b input) o.bUse
      (n_new_breakdowns input breakTarget).toNat).map pvClip0)
    (normalList (temp_mean_b input) (temp_std_b input) o.bTemp
      (n_new_breakdowns input breakTarget).toNat)
    ((normalList (error_mean_b input) (error_std_b input) o.bErr
      (n_new_breakdowns input breakTarget).toNat).map bErrPipeline)
    (List.replicate (n_new_breakdowns input breakTarget).toNat 1)

/-- The property "this sampler scale parameter is an actual number whose
standard deviation is at least `c`", stated on the squared representation:
`std ≥ c` (for `c ≥ 0`) holds exactly when the variance is `≥ c^2`. -/
def stdAtLeast (v : PVal) (c : ℚ) : Prop :=
  ∃ q, v = PVal.num q ∧ c * c ≤ q

/-!  Embedding of the prediction service (`src/app.py`). -/

/-- One entry of the report's `findings` list.  The constructors carry the
dynamic data of the corresponding f-strings: `criticalRisk`/`highRisk`/
`elevatedRisk`/`lowRisk` are the probability findings of lines 71/76/81/86
(payload: the percent value), `highTemp`/`elevatedTemp` are lines 90/93,
`highErrors`/`minorErrors` are lines 96/99, `highUsage` is line 102. -/
inductive Finding where
  | criticalRisk (probPercent : ℚ)
  | highRisk (probPercent : ℚ)
  | elevatedRisk (probPercent : ℚ)
  | lowRisk (probPercent : ℚ)
  | highTemp (t : ℚ)
  | elevatedTemp (t : ℚ)
  | highErrors (n : ℤ)
  | minorErrors (n : ℤ)
  | highUsage (u : ℚ)
deriving DecidableEq

/-- One entry of the report's `next_steps` list: the fixed strings appended at
lines 72/77/82/91/97/105 respectively. -/
inductive NextStep where
  | immediateInspection
  | preventativeMaintenance
  | monitorClosely
  | checkCooling
  | runDiagnostics
  | routineMonitoring
deriving DecidableEq

/-- The dictionary returned by `predict_breakdown` (lines 107-114);
`probability_percent` holds the number that the source formats as a string. -/
structure Report where
  prediction_class : ℤ
  probability_percent : ℚ
  status_label : String
  color : String
  findings : List Finding
  next_steps : List NextStep
deriving DecidableEq

/-- The findings entry of the probability branch (lines 68-86). -/
def probFindings (failProb : ℚ) : List Finding :=
  if failProb > 1 / 2 then [.criticalRisk (failProb * 100)]
  else if failProb > 1 / 10 then [.highRisk (failProb * 100)]
  else if failProb > 1 / 50 then [.elevatedRisk (failProb * 100)]
  else [.lowRisk (failProb * 100)]

/-- The next-steps entry of the probability branch (lines 68-86); the
Low-Risk branch appends nothing. -/
def probSteps (failProb : ℚ) : List NextStep :=
  if failProb > 1 / 2 then [.immediateInspection]
  else if failProb > 1 / 10 then [.preventativeMaintenance]
  else if failProb > 1 / 50 then [.monitorClosely]
  else []

/-- `status_label` of the probability branch (lines 68-86). -/
def probLabel (failProb : ℚ) : String :=
  if failProb > 1 / 2 then "Critical"
  else if failProb > 1 / 10 then "High Risk"
  else if failProb > 1 / 50 then "Elevated"
  else "Low Risk"

/-- `color` of the probability branch (lines 68-86). -/
def probColor (failProb : ℚ) : String :=
  if failProb > 1 / 2 then "#dc3545"
  else if failProb > 1 / 10 then "#fd7e14"
  else if failProb > 1 / 50 then "#ffc107"
  else "#198754"

/-- The report builder `predict_breakdown` (lines 32-114), with the external
classifier outcome (`model.predict`, `model.predict_proba`, lines 54-60)
supplied as the inputs `cls` and `failProb`.  The probability branch of lines
68-86 is split per produced field (`probFindings`, `probSteps`, `probLabel`,
`probColor`, all testing the identical conditions); the sensor findings follow
lines 89-105 in source order. -/
def predict_breakdown (cls : ℤ) (failProb : ℚ) (_device_name : String)
    (usage_hours temperature : ℚ) (error_count : ℤ) : Report :=
  let tempF : List Finding :=
    if temperature > 90 then [.highTemp temperature]
    else if temperature > 60 then [.elevatedTemp temperature] else []
  let tempS : List NextStep := if temperature > 90 then [.checkCooling] else []
  let errF : List Finding :=
    if error_count > 10 then [.highErrors error_count]
    else if error_count > 0 then [.minorErrors error_count] else []
  let errS : List NextStep := if error_count > 10 then [.runDiagnostics] else []
  let useF : List Finding :=
    if usage_hours > 8000 then [.highUsage usage_hours] else []
  let steps := probSteps failProb ++ tempS ++ errS
  { prediction_class := cls
    probability_percent := failProb * 100
    status_label := probLabel failProb
    color := probColor failProb
    findings := probFindings failProb ++ tempF ++ errF ++ useF
    next_steps := if steps = [] then [.routineMonitoring] else steps }

/-- The status label exactly as claim C9 words it: determined solely by the
failure probability against the thresholds 0.5, 0.1 and 0.02. -/
def specStatusLabel (p : ℚ) : String :=
  if p > 1 / 2 then "Critical"
  else if p > 1 / 10 then "High Risk"
  else if p > 1 / 50 then "Elevated"
  else "Low Risk"

/-- A JSON body POSTed to `/predict`: each field may be absent. -/
structure PredictRequest where
  device : Option String
  usage_hours : Option ℚ
  temperature : Option ℚ
  error_count : Option ℤ

/-- Outcome of the loaded model on one input (class and failure probability,
lines 50-60). -/
structure ClfOut where
  cls : ℤ
  failProb : ℚ
deriving DecidableEq

/-- The external model pipeline: it either produces an outcome or raises
(e.g. inside `preprocessor.transform` / `model.predict`). -/
abbrev Clf : Type := String → ℚ → ℚ → ℤ → Except String ClfOut

/-- An HTTP response of the `/predict` route: `jsonify(result)` with implicit
status 200, or `jsonify({"error": ...}), 500`. -/
inductive ApiResponse where
  | ok (status : ℕ) (report : Report)
  | err (status : ℕ) (msg : String)
deriving DecidableEq

/-- The `/predict` route (lines 377-394): missing JSON fields are replaced by
`data.get` defaults (device "ECG Monitor", usage_hours 1000, temperature 40.0,
error_count 0); any raised exception is answered with an error body and
status 500. -/
def predict_api (clf : Clf) (req : PredictRequest) : ApiResponse :=
  let dev := req.device.getD "ECG Monitor"
  let uh := req.usage_hours.getD 1000
  let tp := req.temperature.getD 40
  let ec := req.error_count.getD 0
  match clf dev uh tp ec with
  | .ok m => .ok 200 (predict_breakdown m.cls m.failProb dev uh tp ec)
  | .error e => .err 500 e

/-- A request with every absent field replaced by the route's default. -/
def fillDefaults (req : PredictRequest) : PredictRequest :=
  ⟨some (req.device.getD "ECG Monitor"), some (req.usage_hours.getD 1000),
   some (req.temperature.getD 40), some (req.error_count.getD 0)⟩

/-- HTTP status of a response. -/
def respStatus : ApiResponse → ℕ
  | .ok s _ => s
  | .err s _ => s

/-!  Concrete inputs used by the witness and counterexample theorems. -/

/-- The all-zero randomness source: every choice picks index 0, every normal
draw is exactly the mean, and the shuffle index list is not a permutation, so
the shuffle draw is the identity ordering. -/
def oZero : Oracle :=
  ⟨fun _ => 0, fun _ => 0, fun _ => 0, fun _ => 0,
   fun _ => 0, fun _ => 0, fun _ => 0, fun _ => 0, []⟩

/-- An input record without a `date` value. -/
def mkRaw (d : String) (u t : ℚ) (e f : ℤ) : RawRow := ⟨d, u, t, e, f, none⟩

/-- Two healthy rows and one breakdown row. -/
def sampleA : List RawRow :=
  [mkRaw "A" 10 30 0 0, mkRaw "B" 12 30 1 0, mkRaw "C" 20 50 5 1]

/-- Two healthy rows and two breakdown rows. -/
def sampleB : List RawRow :=
  [mkRaw "A" 10 30 0 0, mkRaw "B" 12 30 1 0,
   mkRaw "C" 20 50 5 1, mkRaw "D" 21 51 6 1]

/-- Two healthy rows, no breakdown rows. -/
def sampleH2 : List RawRow := [mkRaw "A" 10 30 0 0, mkRaw "B" 12 30 1 0]

/-- A single healthy row. -/
def sampleH1 : List RawRow := [mkRaw "A" 10 30 0 0]

/-- One healthy row (carrying a `date` value) and one breakdown row. -/
def sampleHB1 : List RawRow :=
  [⟨"A", 10, 30, 0, 0, some "2024-01-01"⟩, mkRaw "C" 20 50 5 1]

/-- A classifier that always answers class 0 with failure probability 1/4. -/
def clfConst : Clf := fun _ _ _ _ => .ok ⟨0, 1 / 4⟩

/-- A classifier that always raises. -/
def clfBoom : Clf := fun _ _ _ _ => .error "boom"

/-- A POST body with every field absent. -/
def reqEmpty : PredictRequest := ⟨none, none, none, none⟩

/-!  Helper lemmas about the embedded primitives. -/

theorem ok_bind {α β : Type} (a : α) (f : α → Except String β) :
    ((Except.ok a : Except String α) >>= f) = f a := rfl

theorem err_bind {α β : Type} (e : String) (f : α → Except String β) :
    ((Except.error e : Except String α) >>= f) = .error e := rfl

theorem length_choiceList {α : Type} (s : List α) (pick : ℕ → ℕ) (n : ℕ) (d : α) :
    (choiceList s pick n d).length = n := by
  simp [choiceList]

theorem mem_choiceList {α : Type} {s : List α} {pick : ℕ → ℕ} {n : ℕ} {d a : α}
    (hs : s ≠ []) (h : a ∈ choiceList s pick n d) : a ∈ s := by
  simp only [choiceList, List.mem_map, List.mem_range] at h
  obtain ⟨i, _, rfl⟩ := h
  have hlen : pick i % s.length < s.length := Nat.mod_lt _ (List.length_pos.mpr hs)
  rw [List.getD_eq_getElem s d hlen]
  exact List.getElem_mem hlen

theorem length_normalList (mean scaleSq : PVal) (zs : ℕ → ℚ) (n : ℕ) :
    (normalList mean scaleSq zs n).length = n := by
  simp [normalList]

theorem mem_normalList {mean scaleSq : PVal} {zs : ℕ → ℚ} {n : ℕ} {v : PVal}
    (h : v ∈ normalList mean scaleSq zs n) : ∃ z, v = pvShift mean scaleSq z := by
  simp only [normalList, List.mem_map, List.mem_range] at h
  obtain ⟨i, _, rfl⟩ := h
  exact ⟨zs i, rfl⟩

theorem npChoice_nil {α : Type} (pick : ℕ → ℕ) (size : ℤ) (d : α) :
    npChoice ([] : List α) pick size d = .error "a must be non-empty" := rfl

theorem npChoice_neg {α : Type} {s : List α} {size : ℤ} (pick : ℕ → ℕ) (d : α)
    (hs : s ≠ []) (hneg : size < 0) :
    npChoice s pick size d = .error "negative dimensions are not allowed" := by
  simp [npChoice, hs, hneg]

theorem npChoice_ok {α : Type} {s : List α} {size : ℤ} (pick : ℕ → ℕ) (d : α)
    (hs : s ≠ []) (hpos : ¬size < 0) :
    npChoice s pick size d = .ok (choiceList s pick size.toNat d) := by
  simp [npChoice, hs, hpos]

theorem npNormal_ok (mean scaleSq : PVal) (zs : ℕ → ℚ) {size : ℤ} (hpos : ¬size < 0) :
    npNormal mean scaleSq zs size = .ok (normalList mean scaleSq zs size.toNat) := by
  simp [npNormal, hpos]

theorem npIntFill_ok (c : ℤ) {size : ℤ} (hpos : ¬size < 0) :
    npIntFill c size = .ok (List.replicate size.toNat c) := by
  simp [npIntFill, hpos]

theorem range_map_getD {α : Type} (l : List α) (d : α) :
    (List.range l.length).map (fun i => l.getD i d) = l := by
  apply List.ext_getElem
  · simp
  · intro i h1 h2
    simp only [List.getElem_map, List.getElem_range]
    rw [List.getD_eq_getElem]

theorem pyShuffle_perm (sigma : List ℕ) (l : List Row) :
    (pyShuffle sigma l).Perm l := by
  unfold pyShuffle
  split_ifs with h
  · have h2 := h.map fun i => l.getD i default
    rw [range_map_getD] at h2
    exact h2
  · exact List.Perm.refl l

theorem mem_buildRows {devs : List String} {us ts : List PVal} {es fs : List ℤ}
    {r : Row} (h : r ∈ buildRows devs us ts es fs) :
    r.device_name ∈ devs ∧ r.usage_hours ∈ us ∧ r.temperature ∈ ts ∧
      r.error_count ∈ es ∧ r.breakdown_flag ∈ fs := by
  simp only [buildRows, List.mem_map] at h
  obtain ⟨⟨d, u, t, e, f⟩, hmem, rfl⟩ := h
  have h1 := List.of_mem_zip hmem
  have h2 := List.of_mem_zip h1.2
  have h3 := List.of_mem_zip h2.2
  have h4 := List.of_mem_zip h3.2
  exact ⟨h1.1, h2.1, h3.1, h4.1, h4.2⟩

theorem length_buildRows {devs : List String} {us ts : List PVal} {es fs : List ℤ}
    {n : ℕ} (h1 : devs.length = n) (h2 : us.length = n) (h3 : ts.length = n)
    (h4 : es.length = n) (h5 : fs.length = n) :
    (buildRows devs us ts es fs).length = n := by
  simp [buildRows, List.length_zip, h1, h2, h3, h4, h5]

theorem healthy_devices_index_ne_nil {input : List RawRow}
    (hp : healthyPart input ≠ []) : healthy_devices_index input ≠ [] := by
  simp [healthy_devices_index, vcIndex, hp]

theorem healthy_devices_index_nil {input : List RawRow}
    (hp : healthyPart input = []) : healthy_devices_index input = [] := by
  simp [healthy_devices_index, vcIndex, hp]

theorem error_probs_h_index_ne_nil {input : List RawRow}
    (hp : healthyPart input ≠ []) : error_probs_h_index input ≠ [] := by
  simp [error_probs_h_index, vcIndex, hp]

theorem breakdown_devices_index_ne_nil {input : List RawRow}
    (hb : breakdownPart input ≠ []) : breakdown_devices_index input ≠ [] := by
  simp [breakdown_devices_index, vcIndex, hb]

theorem genHealthyRows_empty {input : List RawRow} (total breakTarget : ℤ)
    (o : Oracle) (hp : healthyPart input = []) :
    genHealthyRows input total breakTarget o = .error "a must be non-empty" := by
  unfold genHealthyRows
  dsimp only
  rw [healthy_devices_index_nil hp, npChoice_nil, err_bind]

theorem genHealthyRows_neg {input : List RawRow} {total breakTarget : ℤ}
    (o : Oracle) (hp : healthyPart input ≠ [])
    (hn : n_new_healthy input total breakTarget < 0) :
    genHealthyRows input total breakTarget o =
      .error "negative dimensions are not allowed" := by
  unfold genHealthyRows
  dsimp only
  rw [npChoice_neg _ _ (healthy_devices_index_ne_nil hp) hn, err_bind]

theorem genHealthyRows_ok {input : List RawRow} {total breakTarget : ℤ}
    (o : Oracle) (hp : healthyPart input ≠ [])
    (hn : ¬n_new_healthy input total breakTarget < 0) :
    genHealthyRows input total breakTarget o =
      .ok (healthyRowsPure input total breakTarget o) := by
  unfold genHealthyRows
  dsimp only
  rw [npChoice_ok _ _ (healthy_devices_index_ne_nil hp) hn, ok_bind,
    npNormal_ok _ _ _ hn, ok_bind, npNormal_ok _ _ _ hn, ok_bind,
    npChoice_ok _ _ (error_probs_h_index_ne_nil hp) hn, ok_bind,
    npIntFill_ok _ hn, ok_bind]
  rfl

theorem genHealthyRows_ok_inv {input : List RawRow} {total breakTarget : ℤ}
    {o : Oracle} {H : List Row}
    (h : genHealthyRows input total breakTarget o = .ok H) :
    healthyPart input ≠ [] ∧ 0 ≤ n_new_healthy input total breakTarget ∧
      H = healthyRowsPure input total breakTarget o := by
  by_cases hp : healthyPart input = []
  · rw [genHealthyRows_empty total breakTarget o hp] at h
    simp at h
  · by_cases hn : n_new_healthy input total breakTarget < 0
    · rw [genHealthyRows_neg o hp hn] at h
      simp at h
    · rw [genHealthyRows_ok o hp hn] at h
      injection h with h
      exact ⟨hp, not_lt.mp hn, h.symm⟩

theorem breakdownPart_ne_nil {input : List RawRow}
    (h0 : n_original_breakdowns input ≠ 0) : breakdownPart input ≠ [] := by
  intro h
  exact h0 (by simp [n_original_breakdowns, h])

theorem genBreakdownRows_zero {input : List RawRow} (breakTarget : ℤ) (o : Oracle)
    (h0 : n_original_breakdowns input = 0) :
    genBreakdownRows input breakTarget o = .ok [] := by
  simp [genBreakdownRows, h0]

theorem genBreakdownRows_neg {input : List RawRow} {breakTarget : ℤ} (o : Oracle)
    (h0 : n_original_breakdowns input ≠ 0)
    (hn : n_new_breakdowns input breakTarget < 0) :
    genBreakdownRows input breakTarget o =
      .error "negative dimensions are not allowed" := by
  unfold genBreakdownRows
  rw [if_neg h0]
  dsimp only
  rw [npChoice_neg _ _ (breakdown_devices_index_ne_nil (breakdownPart_ne_nil h0)) hn,
    err_bind]

theorem genBreakdownRows_ok {input : List RawRow} {breakTarget : ℤ} (o : Oracle)
    (h0 : n_original_breakdowns input ≠ 0)
    (hn : ¬n_new_breakdowns input breakTarget < 0) :
    genBreakdownRows input breakTarget o =
      .ok (breakdownRowsPure input breakTarget o) := by
  unfold genBreakdownRows
  rw [if_neg h0]
  dsimp only
  rw [npChoice_ok _ _ (breakdown_devices_index_ne_nil (breakdownPart_ne_nil h0)) hn,
    ok_bind, npNormal_ok _ _ _ hn, ok_bind, npNormal_ok _ _ _ hn, ok_bind,
    npNormal_ok _ _ _ hn, ok_bind, npIntFill_ok _ hn, ok_bind]
  rfl

theorem genBreakdownRows_ok_inv {input : List RawRow} {breakTarget : ℤ}
    {o : Oracle} {Bk : List Row}
    (h : genBreakdownRows input breakTarget o = .ok Bk) :
    (n_original_breakdowns input = 0 ∧ Bk = []) ∨
      (n_original_breakdowns input ≠ 0 ∧ 0 ≤ n_new_breakdowns input breakTarget ∧
        Bk = breakdownRowsPure input breakTarget o) := by
  by_cases h0 : n_original_breakdowns input = 0
  · rw [genBreakdownRows_zero breakTarget o h0] at h
    injection h with h
    exact Or.inl ⟨h0, h.symm⟩
  · by_cases hn : n_new_breakdowns input breakTarget < 0
    · rw [genBreakdownRows_neg o h0 hn] at h
      simp at h
    · rw [genBreakdownRows_ok o h0 hn] at h
      injection h with h
      exact Or.inr ⟨h0, not_lt.mp hn, h.symm⟩

theorem generate_eq_ok {input : List RawRow} {total breakTarget : ℤ} {o : Oracle}
    {H Bk : List Row} (hH : genHealthyRows input total breakTarget o = .ok H)
    (hB : genBreakdownRows input breakTarget o = .ok Bk) :
    generate input total breakTarget o =
      .ok ⟨pyShuffle o.shuffle (dfRows input ++ H ++ Bk),
        n_original_breakdowns input == 0⟩ := by
  unfold generate
  rw [hH, ok_bind, hB, ok_bind]
  rfl

theorem generate_errH {input : List RawRow} {total breakTarget : ℤ} {o : Oracle}
    {e : String} (hH : genHealthyRows input total breakTarget o = .error e) :
    generate input total breakTarget o = .error e := by
  unfold generate
  rw [hH, err_bind]

theorem generate_errB {input : List RawRow} {total breakTarget : ℤ} {o : Oracle}
    {H : List Row} {e : String}
    (hH : genHealthyRows input total breakTarget o = .ok H)
    (hB : genBreakdownRows input breakTarget o = .error e) :
    generate input total breakTarget o = .error e := by
  unfold generate
  rw [hH, ok_bind, hB, err_bind]

theorem generate_ok_inv {input : List RawRow} {total breakTarget : ℤ} {o : Oracle}
    (h : exOk (generate input total breakTarget o) = true) :
    ∃ H Bk, genHealthyRows input total breakTarget o = .ok H ∧
      genBreakdownRows input breakTarget o = .ok Bk ∧
      runRows (generate input total breakTarget o) =
        pyShuffle o.shuffle (dfRows input ++ H ++ Bk) := by
  cases hH : genHealthyRows input total breakTarget o with
  | error e => rw [generate_errH hH] at h; simp [exOk] at h
  | ok H =>
    cases hB : genBreakdownRows input breakTarget o with
    | error e => rw [generate_errB hH hB] at h; simp [exOk] at h
    | ok Bk =>
      refine ⟨H, Bk, rfl, rfl, ?_⟩
      rw [generate_eq_ok hH hB]
      rfl

theorem length_dfRows (input : List RawRow) : (dfRows input).length = input.length := by
  simp [dfRows]

theorem length_healthyRowsPure (input : List RawRow) (total breakTarget : ℤ)
    (o : Oracle) : (healthyRowsPure input total breakTarget o).length =
      (n_new_healthy input total breakTarget).toNat := by
  unfold healthyRowsPure
  exact length_buildRows (length_choiceList _ _ _ _)
    (by rw [List.length_map, length_normalList]) (length_normalList _ _ _ _)
    (length_choiceList _ _ _ _) (List.length_replicate _ _)

theorem healthyRowsPure_flag {input : List RawRow} {total breakTarget : ℤ}
    {o : Oracle} {r : Row} (h : r ∈ healthyRowsPure input total breakTarget o) :
    r.breakdown_flag = 0 :=
  (List.mem_replicate.mp (mem_buildRows h).2.2.2.2).2

theorem healthyRowsPure_device {input : List RawRow} {total breakTarget : ℤ}
    {o : Oracle} {r : Row} (hp : healthyPart input ≠ [])
    (h : r ∈ healthyRowsPure input total breakTarget o) :
    r.device_name ∈ (healthyPart input).map Row.device_name := by
  have hd := (mem_buildRows h).1
  have := mem_choiceList (healthy_devices_index_ne_nil hp) hd
  exact List.mem_dedup.mp this

theorem length_breakdownRowsPure (input : List RawRow) (breakTarget : ℤ)
    (o : Oracle) : (breakdownRowsPure input breakTarget o).length =
      (n_new_breakdowns input breakTarget).toNat := by
  unfold breakdownRowsPure
  exact length_buildRows (length_choiceList _ _ _ _)
    (by rw [List.length_map, length_normalList]) (length_normalList _ _ _ _)
    (by rw [List.length_map, length_normalList]) (List.length_replicate _ _)

theorem breakdownRowsPure_flag {input : List RawRow} {breakTarget : ℤ}
    {o : Oracle} {r : Row} (h : r ∈ breakdownRowsPure input breakTarget o) :
    r.breakdown_flag = 1 :=
  (List.mem_replicate.mp (mem_buildRows h).2.2.2.2).2

theorem breakdownRowsPure_device {input : List RawRow} {breakTarget : ℤ}
    {o : Oracle} {r : Row} (hb : breakdownPart input ≠ [])
    (h : r ∈ breakdownRowsPure input breakTarget o) :
    r.device_name ∈ (breakdownPart input).map Row.device_name := by
  have hd := (mem_buildRows h).1
  have := mem_choiceList (breakdown_devices_index_ne_nil hb) hd
  exact List.mem_dedup.mp this

theorem breakdownRowsPure_err {input : List RawRow} {breakTarget : ℤ}
    {o : Oracle} {r : Row} (h : r ∈ breakdownRowsPure input breakTarget o) :
    ∃ z, r.error_count =
      bErrPipeline (pvShift (error_mean_b input) (error_std_b input) z) := by
  have he := (mem_buildRows h).2.2.2.1
  rw [List.mem_map] at he
  obtain ⟨v, hv, hval⟩ := he
  obtain ⟨z, rfl⟩ := mem_normalList hv
  exact ⟨z, hval.symm⟩

theorem countFlag1_append (l1 l2 : List Row) :
    countFlag1 (l1 ++ l2) = countFlag1 l1 + countFlag1 l2 :=
  List.countP_append _ l1 l2

theorem countFlag1_perm {l1 l2 : List Row} (h : l1.Perm l2) :
    countFlag1 l1 = countFlag1 l2 :=
  h.countP_eq _

theorem countFlag1_zero {l : List Row} (h : ∀ r ∈ l, r.breakdown_flag = 0) :
    countFlag1 l = 0 := by
  rw [countFlag1, List.countP_eq_zero]
  intro r hr
  simp [h r hr]

theorem countFlag1_all_one {l : List Row} (h : ∀ r ∈ l, r.breakdown_flag = 1) :
    countFlag1 l = l.length := by
  rw [countFlag1, List.countP_eq_length]
  intro r hr
  simp [h r hr]

theorem countFlag1_dfRows (input : List RawRow) :
    countFlag1 (dfRows input) = n_original_breakdowns input := by
  rw [countFlag1, n_original_breakdowns, breakdownPart,
    List.countP_eq_length_filter]

theorem healthyPart_sub_dfRows {input : List RawRow} {r : Row}
    (h : r ∈ healthyPart input) : r ∈ dfRows input :=
  (List.mem_filter.mp h).1

theorem breakdownPart_sub_dfRows {input : List RawRow} {r : Row}
    (h : r ∈ breakdownPart input) : r ∈ dfRows input :=
  (List.mem_filter.mp h).1

theorem dfRows_mem_num {input : List RawRow} {r : Row} (h : r ∈ dfRows input) :
    (∃ q, r.usage_hours = PVal.num q) ∧ ∃ q, r.temperature = PVal.num q := by
  rw [dfRows, List.mem_map] at h
  obtain ⟨raw, _, rfl⟩ := h
  exact ⟨⟨raw.usage_hours, rfl⟩, ⟨raw.temperature, rfl⟩⟩

theorem colVals_length_of_num {l : List PVal}
    (h : ∀ v ∈ l, ∃ q, v = PVal.num q) : (colVals l).length = l.length := by
  induction l with
  | nil => rfl
  | cons v tl ih =>
    obtain ⟨q, hq⟩ := h v (List.mem_cons_self v tl)
    subst hq
    have := ih fun w hw => h w (List.mem_cons_of_mem _ hw)
    simp [colVals] at this ⊢
    exact this

theorem usageVals_healthyPart_length (input : List RawRow) :
    (usageVals (healthyPart input)).length = (healthyPart input).length := by
  rw [usageVals, colVals_length_of_num, List.length_map]
  intro v hv
  rw [List.mem_map] at hv
  obtain ⟨r, hr, rfl⟩ := hv
  exact (dfRows_mem_num (healthyPart_sub_dfRows hr)).1

theorem tempVals_healthyPart_length (input : List RawRow) :
    (tempVals (healthyPart input)).length = (healthyPart input).length := by
  rw [tempVals, colVals_length_of_num, List.length_map]
  intro v hv
  rw [List.mem_map] at hv
  obtain ⟨r, hr, rfl⟩ := hv
  exact (dfRows_mem_num (healthyPart_sub_dfRows hr)).2

theorem usageVals_breakdownPart_length (input : List RawRow) :
    (usageVals (breakdownPart input)).length = (breakdownPart input).length := by
  rw [usageVals, colVals_length_of_num, List.length_map]
  intro v hv
  rw [List.mem_map] at hv
  obtain ⟨r, hr, rfl⟩ := hv
  exact (dfRows_mem_num (breakdownPart_sub_dfRows hr)).1

theorem tempVals_breakdownPart_length (input : List RawRow) :
    (tempVals (breakdownPart input)).length = (breakdownPart input).length := by
  rw [tempVals, colVals_length_of_num, List.length_map]
  intro v hv
  rw [List.mem_map] at hv
  obtain ⟨r, hr, rfl⟩ := hv
  exact (dfRows_mem_num (breakdownPart_sub_dfRows hr)).2

theorem errVals_length (rows : List Row) : (errVals rows).length = rows.length :=
  List.length_map rows _

theorem pStdSq_num_of_two_le {l : List ℚ} (h : 2 ≤ l.length) :
    ∃ q, pStdSq l = PVal.num q := by
  rw [pStdSq, if_neg (by omega)]
  exact ⟨_, rfl⟩

theorem pStdSq_nan_of_lt_two {l : List ℚ} (h : l.length < 2) :
    pStdSq l = PVal.nan := by
  rw [pStdSq, if_pos h]

theorem stdAtLeast_pyMaxStd (q c : ℚ) :
    stdAtLeast (pyMaxStd (PVal.num q) c) c :=
  ⟨max q (c * c), rfl, le_max_right _ _⟩

theorem healthyPart_eq_dfRows {input : List RawRow}
    (hflags : ∀ r ∈ input, r.breakdown_flag = 0 ∨ r.breakdown_flag = 1)
    (h0 : n_original_breakdowns input = 0) : healthyPart input = dfRows input := by
  have hb : breakdownPart input = [] :=
    List.length_eq_zero.mp h0
  rw [healthyPart, List.filter_eq_self]
  intro r hr
  rw [dfRows, List.mem_map] at hr
  obtain ⟨raw, hraw, rfl⟩ := hr
  rcases hflags raw hraw with h | h
  · simp [RawRow.toRow, h]
  · exfalso
    have : raw.toRow ∈ breakdownPart input := by
      rw [breakdownPart, List.mem_filter]
      refine ⟨List.mem_map_of_mem _ hraw, by simp [RawRow.toRow, h]⟩
    rw [hb] at this
    exact List.not_mem_nil _ this

theorem breakdownRowsPure_nil {input : List RawRow} {breakTarget : ℤ} (o : Oracle)
    (h : (n_new_breakdowns input breakTarget).toNat = 0) :
    breakdownRowsPure input breakTarget o = [] := by
  unfold breakdownRowsPure
  rw [h]
  rfl

/-!  Claim theorems. -/

/-- Claim C1, counterexample: `sampleB` has 2 original breakdown rows, at (in
fact above) the breakdown target 1, so the claim asserts the run completes with
zero new breakdown rows; instead the generator computes the negative sample
size `1 - 2` and numpy raises, so no output is produced. -/
theorem C1_counterexample :
    n_original_breakdowns sampleB = 2 ∧
      exOk (generate sampleB 10 1 oZero) = false :=
  ⟨by decide, by decide⟩

/-- Claim C1, amended: when the original breakdown count exactly equals
`breakdown_target` (and the run can otherwise proceed: a nonempty healthy
partition and a nonnegative healthy sample size), the generator completes,
synthesizes zero breakdown rows and deletes no original row; but whenever a
nonnegative `breakdown_target` is strictly below the original breakdown count,
the generator raises (numpy rejects the negative sample size) instead of
treating the difference as zero. -/
theorem C1_amended (input : List RawRow) (total breakTarget : ℤ) (o : Oracle) :
    (healthyPart input ≠ [] → (n_original_breakdowns input : ℤ) = breakTarget →
      0 ≤ n_new_healthy input total breakTarget →
      exOk (generate input total breakTarget o) = true ∧
        genBreakdownRows input breakTarget o = .ok [] ∧
        List.Subperm (dfRows input)
          (runRows (generate input total breakTarget o))) ∧
    (0 ≤ breakTarget → breakTarget < (n_original_breakdowns input : ℤ) →
      exOk (generate input total breakTarget o) = false) := by
  constructor
  · intro hp hEq hn
    have hBk : genBreakdownRows input breakTarget o = .ok [] := by
      by_cases h0 : n_original_breakdowns input = 0
      · exact genBreakdownRows_zero breakTarget o h0
      · have hB0 : n_new_breakdowns input breakTarget = 0 := by
          unfold n_new_breakdowns
          rw [if_neg h0]
          omega
        rw [genBreakdownRows_ok o h0 (by omega),
          breakdownRowsPure_nil o (by omega)]
    have hH := genHealthyRows_ok o hp (not_lt.mpr hn)
    have hGen := generate_eq_ok hH hBk
    have hrun : runRows (generate input total breakTarget o) =
        pyShuffle o.shuffle
          (dfRows input ++ healthyRowsPure input total breakTarget o ++ []) := by
      rw [hGen]
      rfl
    refine ⟨by rw [hGen]; rfl, hBk, ?_⟩
    rw [hrun]
    have hsub : List.Subperm (dfRows input)
        (dfRows input ++ healthyRowsPure input total breakTarget o ++ []) :=
      ((List.sublist_append_left _ _).trans (List.sublist_append_left _ _)).subperm
    exact hsub.trans (pyShuffle_perm _ _).symm.subperm
  · intro hBpos hlt
    have h0 : n_original_breakdowns input ≠ 0 := by omega
    by_cases hp : healthyPart input = []
    · rw [generate_errH (genHealthyRows_empty total breakTarget o hp)]; rfl
    · by_cases hn : n_new_healthy input total breakTarget < 0
      · rw [generate_errH (genHealthyRows_neg o hp hn)]; rfl
      · have hneg : n_new_breakdowns input breakTarget < 0 := by
          unfold n_new_breakdowns
          rw [if_neg h0]
          omega
        rw [generate_errB (genHealthyRows_ok o hp hn)
          (genBreakdownRows_neg o h0 hneg)]
        rfl

/-- Witness for `C1_amended`: at-target run (`sampleB`, target 2) completes
with zero synthesized breakdown rows and the originals contained in the
output; above-target run (`sampleB`, target 0) raises. -/
theorem C1_amended_witness :
    exOk (generate sampleB 5 2 oZero) = true ∧
      genBreakdownRows sampleB 2 oZero = .ok [] ∧
      List.Subperm (dfRows sampleB) (runRows (generate sampleB 5 2 oZero)) ∧
      exOk (generate sampleB 12 0 oZero) = false := by
  obtain ⟨h1, h2, h3⟩ :=
    (C1_amended sampleB 5 2 oZero).1 (by decide) (by decide) (by decide)
  exact ⟨h1, h2, h3, (C1_amended sampleB 12 0 oZero).2 (by decide) (by decide)⟩

/-- Claim C2, counterexample: `sampleA` has 3 original rows; with
`total_target = 2` the number of new healthy rows is `-1`, and the claim
asserts the generator still completes with a shorter output; instead numpy
rejects the negative sample size and the run raises, producing nothing. -/
theorem C2_counterexample :
    n_new_healthy sampleA 2 1 = -1 ∧ exOk (generate sampleA 2 1 oZero) = false :=
  ⟨by decide, by decide⟩

/-- Claim C2, amended: whenever the computed number of new healthy rows
`total_target - original rows - new breakdown rows` is negative, the generator
raises (numpy rejects the negative sample size) and produces no output at all,
rather than completing with fewer rows; the input itself is untouched (the run
fails before anything is written). -/
theorem C2_amended (input : List RawRow) (total breakTarget : ℤ) (o : Oracle) :
    n_new_healthy input total breakTarget < 0 →
    exOk (generate input total breakTarget o) = false := by
  intro hn
  by_cases hp : healthyPart input = []
  · rw [generate_errH (genHealthyRows_empty total breakTarget o hp)]; rfl
  · rw [generate_errH (genHealthyRows_neg o hp hn)]; rfl

/-- Witness for `C2_amended` at `sampleA` with `total_target = 1`. -/
theorem C2_amended_witness :
    n_new_healthy sampleA 1 3 < 0 ∧ exOk (generate sampleA 1 3 oZero) = false :=
  ⟨by decide, C2_amended sampleA 1 3 oZero (by decide)⟩

/-- Claim C3, counterexample: `sampleH1` has a one-row healthy partition
(fewer than 2 rows), but the standard deviation used to parameterize its
usage sampler is NOT floored to 1.0: the source applies no `max` to the
healthy partition at all, and the pandas std of one row is NaN, so the
claimed bound fails. -/
theorem C3_counterexample :
    (healthyPart sampleH1).length = 1 ∧ ¬stdAtLeast (usage_std_h sampleH1) 1 := by
  refine ⟨by decide, ?_⟩
  rintro ⟨q, hq, -⟩
  have h : usage_std_h sampleH1 = PVal.nan := by decide
  rw [h] at hq
  exact PVal.noConfusion hq

/-- Claim C3, amended: only the breakdown partition's sampling scales pass
through `max(std, floor)`, and that floor is effective only when the pandas
std is an actual number, i.e. when the partition has at least 2 rows (then the
scales are at least 1.0 / 1.0 / 0.5 for usage, temperature and error count).
For a one-row breakdown partition the std is NaN and Python's
`max(nan, floor)` returns NaN, so no flooring happens; the healthy partition's
scales are never floored and are NaN for a one-row partition. -/
theorem C3_amended (input : List RawRow) :
    (2 ≤ (breakdownPart input).length →
      stdAtLeast (usage_std_b input) 1 ∧ stdAtLeast (temp_std_b input) 1 ∧
        stdAtLeast (error_std_b input) (1 / 2)) ∧
    ((breakdownPart input).length = 1 →
      usage_std_b input = PVal.nan ∧ temp_std_b input = PVal.nan ∧
        error_std_b input = PVal.nan) ∧
    ((healthyPart input).length = 1 →
      usage_std_h input = PVal.nan ∧ temp_std_h input = PVal.nan) := by
  refine ⟨fun h2 => ⟨?_, ?_, ?_⟩, fun h1 => ⟨?_, ?_, ?_⟩, fun h1 => ⟨?_, ?_⟩⟩
  · obtain ⟨q, hq⟩ := pStdSq_num_of_two_le
      (l := usageVals (breakdownPart input))
      (by rw [usageVals_breakdownPart_length]; exact h2)
    unfold usage_std_b
    rw [hq]
    exact stdAtLeast_pyMaxStd q 1
  · obtain ⟨q, hq⟩ := pStdSq_num_of_two_le
      (l := tempVals (breakdownPart input))
      (by rw [tempVals_breakdownPart_length]; exact h2)
    unfold temp_std_b
    rw [hq]
    exact stdAtLeast_pyMaxStd q 1
  · obtain ⟨q, hq⟩ := pStdSq_num_of_two_le
      (l := errVals (breakdownPart input))
      (by rw [errVals_length]; exact h2)
    unfold error_std_b
    rw [hq]
    exact stdAtLeast_pyMaxStd q (1 / 2)
  · unfold usage_std_b
    rw [pStdSq_nan_of_lt_two (by rw [usageVals_breakdownPart_length]; omega)]
    rfl
  · unfold temp_std_b
    rw [pStdSq_nan_of_lt_two (by rw [tempVals_breakdownPart_length]; omega)]
    rfl
  · unfold error_std_b
    rw [pStdSq_nan_of_lt_two (by rw [errVals_length]; omega)]
    rfl
  · unfold usage_std_h
    exact pStdSq_nan_of_lt_two (by rw [usageVals_healthyPart_length]; omega)
  · unfold temp_std_h
    exact pStdSq_nan_of_lt_two (by rw [tempVals_healthyPart_length]; omega)

/-- Witness for `C3_amended`: a two-row breakdown partition is floored, a
one-row breakdown partition yields NaN, and a one-row healthy partition yields
NaN with no floor. -/
theorem C3_amended_witness :
    stdAtLeast (usage_std_b sampleB) 1 ∧ usage_std_b sampleA = PVal.nan ∧
      usage_std_h sampleH1 = PVal.nan :=
  ⟨((C3_amended sampleB).1 (by decide)).1,
   ((C3_amended sampleA).2.1 (by decide)).1,
   ((C3_amended sampleH1).2.2 (by decide)).1⟩

/-- Claim C4, counterexample: `sampleH2` is a valid input with zero breakdown
rows; with `breakdown_target = 5` the generator completes and the output has
0 rows with `breakdown_flag == 1`, but the claimed formula
`original + max(0, target - original)` demands 5. -/
theorem C4_counterexample :
    exOk (generate sampleH2 3 5 oZero) = true ∧
      countFlag1 (runRows (generate sampleH2 3 5 oZero)) = 0 ∧
      (n_original_breakdowns sampleH2 : ℤ) +
        max 0 (5 - (n_original_breakdowns sampleH2 : ℤ)) = 5 :=
  ⟨by decide, by decide, by decide⟩

/-- Claim C4, amended: on every run that produces an output, each output row
has `breakdown_flag ∈ {0, 1}` provided every input row does, and the number of
output rows with `breakdown_flag == 1` equals `breakdown_target` when the input
has at least one breakdown row (a successful run forces
`original ≤ breakdown_target`, so the `max` clamp never fires), and equals 0
when the input has none (the zero-breakdown fallback synthesizes nothing);
inputs with `original > breakdown_target ≥ 0` never produce an output at all. -/
theorem C4_amended (input : List RawRow) (total breakTarget : ℤ) (o : Oracle)
    (hok : exOk (generate input total breakTarget o) = true) :
    ((∀ r ∈ input, r.breakdown_flag = 0 ∨ r.breakdown_flag = 1) →
      ∀ r ∈ runRows (generate input total breakTarget o),
        r.breakdown_flag = 0 ∨ r.breakdown_flag = 1) ∧
    (countFlag1 (runRows (generate input total breakTarget o)) : ℤ) =
      (if n_original_breakdowns input = 0 then 0 else breakTarget) := by
  obtain ⟨H, Bk, hH, hB, hrun⟩ := generate_ok_inv hok
  obtain ⟨hp, hnH, hHpure⟩ := genHealthyRows_ok_inv hH
  have hperm : (runRows (generate input total breakTarget o)).Perm
      (dfRows input ++ H ++ Bk) := by
    rw [hrun]
    exact pyShuffle_perm _ _
  constructor
  · intro hflags r hr
    have hmem : r ∈ dfRows input ++ H ++ Bk := hperm.mem_iff.mp hr
    rcases List.mem_append.mp hmem with h1 | hBk2
    · rcases List.mem_append.mp h1 with hdf | hHm
      · rw [dfRows, List.mem_map] at hdf
        obtain ⟨raw, hraw, rfl⟩ := hdf
        exact hflags raw hraw
      · subst hHpure
        exact Or.inl (healthyRowsPure_flag hHm)
    · rcases genBreakdownRows_ok_inv hB with ⟨_, rfl⟩ | ⟨_, _, rfl⟩
      · cases hBk2
      · exact Or.inr (breakdownRowsPure_flag hBk2)
  · have hcount : countFlag1 (runRows (generate input total breakTarget o)) =
        countFlag1 (dfRows input) + countFlag1 H + countFlag1 Bk := by
      rw [countFlag1_perm hperm, countFlag1_append, countFlag1_append]
    have hHzero : countFlag1 H = 0 :=
      countFlag1_zero fun r hr => healthyRowsPure_flag (hHpure ▸ hr)
    rcases genBreakdownRows_ok_inv hB with ⟨h0, rfl⟩ | ⟨h0, hBn, rfl⟩
    · rw [if_pos h0, hcount, countFlag1_dfRows, hHzero, h0]
      rfl
    · rw [if_neg h0]
      have hBkcount : countFlag1 (breakdownRowsPure input breakTarget o) =
          (n_new_breakdowns input breakTarget).toNat := by
        rw [countFlag1_all_one fun r hr => breakdownRowsPure_flag hr,
          length_breakdownRowsPure]
      have hval : n_new_breakdowns input breakTarget =
          breakTarget - n_original_breakdowns input := by
        unfold n_new_breakdowns
        rw [if_neg h0]
      rw [hcount, countFlag1_dfRows, hHzero, hBkcount]
      push_cast
      omega

/-- Witness for `C4_amended` at `sampleA` (one original breakdown row, target
3): the completed run has exactly 3 breakdown-flagged rows and its first
original row keeps a flag in `{0, 1}`. -/
theorem C4_amended_witness :
    exOk (generate sampleA 5 3 oZero) = true ∧
      (countFlag1 (runRows (generate sampleA 5 3 oZero)) : ℤ) = 3 ∧
      ((⟨"A", PVal.num 10, PVal.num 30, 0, 0⟩ : Row).breakdown_flag = 0 ∨
        (⟨"A", PVal.num 10, PVal.num 30, 0, 0⟩ : Row).breakdown_flag = 1) := by
  have h := C4_amended sampleA 5 3 oZero (by decide)
  exact ⟨by decide, h.2.trans (by decide),
    h.1 (by decide) ⟨"A", PVal.num 10, PVal.num 30, 0, 0⟩ (by decide)⟩

/-- Claim C5, confirmed: a valid input (nonempty, flags in `{0, 1}`, total
target at least the input size) with zero breakdown rows runs to completion in
degraded mode: the warning is emitted, zero breakdown rows are synthesized,
the output's breakdown count is the original 0, and the remainder up to
`total_target` is filled purely with synthetic healthy rows. -/
theorem C5_confirmed (input : List RawRow) (total breakTarget : ℤ) (o : Oracle)
    (hne : input ≠ [])
    (hflags : ∀ r ∈ input, r.breakdown_flag = 0 ∨ r.breakdown_flag = 1)
    (h0 : n_original_breakdowns input = 0)
    (hT : (input.length : ℤ) ≤ total) :
    exOk (generate input total breakTarget o) = true ∧
      warnedOf (generate input total breakTarget o) = true ∧
      genBreakdownRows input breakTarget o = .ok [] ∧
      countFlag1 (runRows (generate input total breakTarget o)) = 0 ∧
      ((runRows (generate input total breakTarget o)).length : ℤ) = total := by
  have hpd : healthyPart input = dfRows input := healthyPart_eq_dfRows hflags h0
  have hp : healthyPart input ≠ [] := by
    rw [hpd, dfRows]
    intro hmap
    exact hne (List.map_eq_nil_iff.mp hmap)
  have hB0 : n_new_breakdowns input breakTarget = 0 := by
    unfold n_new_breakdowns
    rw [if_pos h0]
  have hnHval : n_new_healthy input total breakTarget =
      total - input.length := by
    unfold n_new_healthy
    rw [hB0, hpd, length_dfRows, h0]
    push_cast
    ring
  have hnH : ¬n_new_healthy input total breakTarget < 0 := by omega
  have hH := genHealthyRows_ok o hp hnH
  have hBk := genBreakdownRows_zero breakTarget o h0
  have hGen := generate_eq_ok hH hBk
  have hrun : runRows (generate input total breakTarget o) =
      pyShuffle o.shuffle
        (dfRows input ++ healthyRowsPure input total breakTarget o ++ []) := by
    rw [hGen]
    rfl
  have hperm : (runRows (generate input total breakTarget o)).Perm
      (dfRows input ++ healthyRowsPure input total breakTarget o ++ []) := by
    rw [hrun]
    exact pyShuffle_perm _ _
  refine ⟨by rw [hGen]; rfl, ?_, hBk, ?_, ?_⟩
  · rw [hGen]
    simp [warnedOf, h0]
  · rw [countFlag1_perm hperm, countFlag1_append, countFlag1_append,
      countFlag1_dfRows, h0,
      countFlag1_zero fun r hr => healthyRowsPure_flag hr]
    rfl
  · rw [hperm.length_eq]
    simp only [List.length_append, length_dfRows, length_healthyRowsPure,
      List.length_nil]
    omega

/-- Witness for `C5_confirmed` at `sampleH2` (two healthy rows, total target 4,
breakdown target 3). -/
theorem C5_witness :
    exOk (generate sampleH2 4 3 oZero) = true ∧
      warnedOf (generate sampleH2 4 3 oZero) = true ∧
      genBreakdownRows sampleH2 3 oZero = .ok [] ∧
      countFlag1 (runRows (generate sampleH2 4 3 oZero)) = 0 ∧
      ((runRows (generate sampleH2 4 3 oZero)).length : ℤ) = 4 :=
  C5_confirmed sampleH2 4 3 oZero (by decide) (by decide) (by decide) (by decide)

/-- Claim C6, confirmed: the output of a completed run is a permutation of the
original rows (with only the `date` column dropped) followed by the synthesized
healthy and breakdown rows; in particular the multiset of original rows is
contained in the output, and the output size accounts for every original row
(none deleted, none truncated).  The input list itself is never modified: the
run only reads it. -/
theorem C6_confirmed (input : List RawRow) (total breakTarget : ℤ) (o : Oracle)
    (H Bk : List Row) (hH : genHealthyRows input total breakTarget o = .ok H)
    (hB : genBreakdownRows input breakTarget o = .ok Bk) :
    (runRows (generate input total breakTarget o)).Perm
        (dfRows input ++ H ++ Bk) ∧
      List.Subperm (dfRows input) (runRows (generate input total breakTarget o)) ∧
      (runRows (generate input total breakTarget o)).length =
        input.length + H.length + Bk.length := by
  have hGen := generate_eq_ok hH hB
  have hrun : runRows (generate input total breakTarget o) =
      pyShuffle o.shuffle (dfRows input ++ H ++ Bk) := by
    rw [hGen]
    rfl
  have hperm : (runRows (generate input total breakTarget o)).Perm
      (dfRows input ++ H ++ Bk) := by
    rw [hrun]
    exact pyShuffle_perm _ _
  refine ⟨hperm, ?_, ?_⟩
  · exact (((List.sublist_append_left _ _).trans
      (List.sublist_append_left _ _)).subperm).trans hperm.symm.subperm
  · rw [hperm.length_eq]
    simp only [List.length_append, length_dfRows]

/-- Witness for `C6_confirmed` at `sampleHB1` with both synthesis sizes zero:
the completed output is a permutation of exactly the two original rows (the
healthy one losing only its `date` value). -/
theorem C6_witness :
    genHealthyRows sampleHB1 2 1 oZero = .ok [] ∧
      genBreakdownRows sampleHB1 1 oZero = .ok [] ∧
      (runRows (generate sampleHB1 2 1 oZero)).Perm
        (dfRows sampleHB1 ++ [] ++ []) ∧
      List.Subperm (dfRows sampleHB1) (runRows (generate sampleHB1 2 1 oZero)) ∧
      (runRows (generate sampleHB1 2 1 oZero)).length =
        sampleHB1.length + List.length ([] : List Row) +
          List.length ([] : List Row) := by
  have h1 : genHealthyRows sampleHB1 2 1 oZero = .ok [] := by
    with_unfolding_all rfl
  have h2 : genBreakdownRows sampleHB1 1 oZero = .ok [] := by
    with_unfolding_all rfl
  obtain ⟨p1, p2, p3⟩ := C6_confirmed sampleHB1 2 1 oZero [] [] h1 h2
  exact ⟨h1, h2, p1, p2, p3⟩

/-- Claim C7, confirmed: every synthesized healthy row's `device_name` is one
of the device names observed in the input's healthy partition, and every
synthesized breakdown row's `device_name` is one observed in the breakdown
partition — no novel category is ever introduced. -/
theorem C7_confirmed (input : List RawRow) (total breakTarget : ℤ) (o : Oracle)
    (H Bk : List Row) (hH : genHealthyRows input total breakTarget o = .ok H)
    (hB : genBreakdownRows input breakTarget o = .ok Bk) :
    (∀ r ∈ H, r.device_name ∈ (healthyPart input).map Row.device_name) ∧
      ∀ r ∈ Bk, r.device_name ∈ (breakdownPart input).map Row.device_name := by
  obtain ⟨hp, _, hHpure⟩ := genHealthyRows_ok_inv hH
  constructor
  · intro r hr
    subst hHpure
    exact healthyRowsPure_device hp hr
  · intro r hr
    rcases genBreakdownRows_ok_inv hB with ⟨_, rfl⟩ | ⟨h0, _, rfl⟩
    · cases hr
    · exact breakdownRowsPure_device (breakdownPart_ne_nil h0) hr

/-- Witness for `C7_confirmed` at `sampleA` (total 6, target 3): one healthy
row (device "A") and two breakdown rows (device "C") are synthesized, and both
devices are observed in their partitions. -/
theorem C7_witness :
    genHealthyRows sampleA 6 3 oZero =
      .ok [⟨"A", PVal.num 11, PVal.num 30, 0, 0⟩] ∧
      genBreakdownRows sampleA 3 oZero =
        .ok [⟨"C", PVal.nan, PVal.nan, npNanCastInt, 1⟩,
          ⟨"C", PVal.nan, PVal.nan, npNanCastInt, 1⟩] ∧
      "A" ∈ (healthyPart sampleA).map Row.device_name ∧
      "C" ∈ (breakdownPart sampleA).map Row.device_name := by
  have h1 : genHealthyRows sampleA 6 3 oZero =
      .ok [⟨"A", PVal.num 11, PVal.num 30, 0, 0⟩] := by
    with_unfolding_all rfl
  have h2 : genBreakdownRows sampleA 3 oZero =
      .ok [⟨"C", PVal.nan, PVal.nan, npNanCastInt, 1⟩,
        ⟨"C", PVal.nan, PVal.nan, npNanCastInt, 1⟩] := by
    with_unfolding_all rfl
  have h := C7_confirmed sampleA 6 3 oZero _ _ h1 h2
  refine ⟨h1, h2, ?_, ?_⟩
  · exact h.1 ⟨"A", PVal.num 11, PVal.num 30, 0, 0⟩ (by decide)
  · exact h.2 ⟨"C", PVal.nan, PVal.nan, npNanCastInt, 1⟩ (by decide)

/-- Claim C8, failing-input evaluation: on `sampleA` (exactly one original
breakdown row) the breakdown error-count scale is NaN — `max(nan, 0.5)` keeps
NaN — so every normal draw is NaN and `.astype(int)` performs an invalid cast:
the two synthesized breakdown rows carry `npNanCastInt` (INT64_MIN on the
x86-64 reference platform), which is negative, contradicting the claimed
non-negativity.  The run itself completes without any raised error. -/
theorem C8_bug :
    error_std_b sampleA = PVal.nan ∧
      exOk (generate sampleA 5 3 oZero) = true ∧
      (runRows (generate sampleA 5 3 oZero)).map Row.error_count =
        [0, 1, 5, npNanCastInt, npNanCastInt] ∧
      npNanCastInt < 0 := by
  refine ⟨by decide, by decide, ?_, by decide⟩
  with_unfolding_all rfl

theorem probFindings_ne_nil (p : ℚ) : probFindings p ≠ [] := by
  unfold probFindings
  split_ifs <;> simp

theorem probLabel_cases (p : ℚ) :
    probLabel p = "Critical" ∨ probLabel p = "High Risk" ∨
      probLabel p = "Elevated" ∨ probLabel p = "Low Risk" := by
  unfold probLabel
  split_ifs <;> simp

/-- Claim C9, confirmed: every report built by `predict_breakdown` has a
nonempty findings list and a nonempty next-steps list, and its status label is
exactly one of "Critical", "High Risk", "Elevated", "Low Risk", determined
solely by the failure probability against the thresholds 0.5, 0.1, 0.02. -/
theorem C9_confirmed (cls : ℤ) (failProb : ℚ) (device : String)
    (usage temp : ℚ) (errc : ℤ) :
    (predict_breakdown cls failProb device usage temp errc).findings ≠ [] ∧
      (predict_breakdown cls failProb device usage temp errc).next_steps ≠ [] ∧
      (predict_breakdown cls failProb device usage temp errc).status_label =
        specStatusLabel failProb ∧
      ((predict_breakdown cls failProb device usage temp errc).status_label =
          "Critical" ∨
        (predict_breakdown cls failProb device usage temp errc).status_label =
          "High Risk" ∨
        (predict_breakdown cls failProb device usage temp errc).status_label =
          "Elevated" ∨
        (predict_breakdown cls failProb device usage temp errc).status_label =
          "Low Risk") := by
  refine ⟨?_, ?_, rfl, probLabel_cases failProb⟩
  · intro h
    simp only [predict_breakdown, List.append_eq_nil] at h
    exact probFindings_ne_nil failProb h.1.1.1
  · simp only [predict_breakdown]
    split_ifs <;> simp_all

/-- Claim C10, confirmed: `/predict` never rejects a request for missing
fields — the response is the same as for the request completed with the
defaults "ECG Monitor" / 1000 / 40.0 / 0 — and the response is a 200 report
exactly when the model pipeline succeeds on the defaulted input, a 500 error
body exactly when it raises. -/
theorem C10_confirmed (clf : Clf) (req : PredictRequest) :
    predict_api clf req = predict_api clf (fillDefaults req) ∧
      (∀ out, clf (req.device.getD "ECG Monitor") (req.usage_hours.getD 1000)
          (req.temperature.getD 40) (req.error_count.getD 0) = .ok out →
        predict_api clf req = .ok 200
          (predict_breakdown out.cls out.failProb (req.device.getD "ECG Monitor")
            (req.usage_hours.getD 1000) (req.temperature.getD 40)
            (req.error_count.getD 0))) ∧
      (∀ e, clf (req.device.getD "ECG Monitor") (req.usage_hours.getD 1000)
          (req.temperature.getD 40) (req.error_count.getD 0) = .error e →
        predict_api clf req = .err 500 e) ∧
      (respStatus (predict_api clf req) = 200 ∨
        respStatus (predict_api clf req) = 500) := by
  refine ⟨rfl, ?_, ?_, ?_⟩
  · intro out hout
    unfold predict_api
    dsimp only
    rw [hout]
  · intro e he
    unfold predict_api
    dsimp only
    rw [he]
  · unfold predict_api
    dsimp only
    cases clf (req.device.getD "ECG Monitor") (req.usage_hours.getD 1000)
        (req.temperature.getD 40) (req.error_count.getD 0) with
    | ok m => exact Or.inl rfl
    | error e => exact Or.inr rfl

/-- Witness for `C10_confirmed`: an all-absent body answered with a 200 report
built from the defaults, and a raising pipeline answered with 500. -/
theorem C10_witness :
    predict_api clfConst reqEmpty =
      .ok 200 (predict_breakdown 0 (1 / 4) "ECG Monitor" 1000 40 0) ∧
      predict_api clfBoom reqEmpty = .err 500 "boom" :=
  ⟨(C10_confirmed clfConst reqEmpty).2.1 ⟨0, 1 / 4⟩ rfl,
   (C10_confirmed clfBoom reqEmpty).2.2.1 "boom" rfl⟩

end MedEquip
